import Mathlib

/-!
Verification of the reservoir mass-balance simulation engine of
`src/app.py` (function `simular_reservatorio`, lines 11–65).

The engine is embedded shallowly over `ℚ`: every quantity the Python code
holds in a float (volumes in hm³, areas in km², evaporation rates in mm)
becomes an exact rational, and the numeric literals `1e6` and `1000` of the
source become the rationals `1000000` and `1000`.  The Python `None` /
`np.inf` default for `volume_max` is embedded as `Option ℚ` (`none` = no
finite cap, so `min(x, inf) = x`).  Exceptions escaping the function
(`np.polyfit` on degenerate input, `IndexError` when the demand or
evaporation series is shorter than the inflow series) are embedded by
returning `none` from an `Option`-valued top level.  The Streamlit warning
emitted when the constraints table cannot be parsed (line 28) is embedded
as a `Bool` flag returned next to the result bundle.
-/

namespace Simulacao

/-- Kind of operational alert appended inside the step loop: volume below
the operational minimum (line 51) or below the dead volume (line 53). -/
inductive TipoAlerta where
  | minimoOperacional
  | volumeMorto
deriving DecidableEq

/-- One alert string `f"Mês {t + 1}: ... ({v_atual:.2f} hm³)"` of lines
52/54, embedded structurally: the month number interpolated into the text,
which of the two messages it is, and the volume rendered in the text,
rounded to 2 decimal places as `:.2f` does. -/
structure Alerta where
  mes : ℕ
  tipo : TipoAlerta
  valor : ℚ
deriving DecidableEq

/-- Embedding of the Python format `f"{v:.2f}"` applied to an exact
rational: rounding to two decimal places. -/
def round2 (q : ℚ) : ℚ := (round (100 * q) : ℤ) / 100

/-- Operational limits held in the local variables `volume_max`,
`volume_min_oper`, `volume_morto` of lines 17–26.  `volume_max` starts as
`np.inf`, embedded as `Option.none`. -/
structure Limites where
  volumeMax : Option ℚ
  volumeMinOper : ℚ
  volumeMorto : ℚ
deriving DecidableEq

/-- Embedding of Python `min(x, volume_max)` (line 49) where `volume_max`
may be `np.inf`: with no finite cap the minimum is `x` itself. -/
def minCap (x : ℚ) : Option ℚ → ℚ
  | Option.none => x
  | Option.some m => min x m

/-- Constraints argument `restricoes` of `simular_reservatorio`:
`None` (line 21 guard fails), a table whose
`set_index('Parâmetro')['Valor (hm³)'].to_dict()` call raises (the
`except` branch of line 27), or a table that parses into parameter/value
rows. -/
inductive Restricoes where
  | nenhuma
  | malformada
  | tabela (rows : List (String × ℚ))
deriving DecidableEq

/-- First value paired with key `k`, scanning left to right. -/
def lookupFirst : List (String × ℚ) → String → Option ℚ
  | [], _ => Option.none
  | (k', v) :: rest, k => if k' = k then Option.some v else lookupFirst rest k

/-- Embedding of `pandas.Series.to_dict` followed by `.get` pair lookup:
with duplicate parameter names the later row wins, exactly as building a
Python dict from the series does — hence the lookup scans the reversed
row list. -/
def dictGet (rows : List (String × ℚ)) (k : String) : Option ℚ :=
  lookupFirst rows.reverse k

/-- Lines 17–28: resolve the operational limits from the constraints
argument, together with the `st.warning` flag of line 28.  Defaults are
`np.inf` / `0` / `0`; a malformed table keeps all defaults and warns; a
parsed table overrides exactly the recognized keys present. -/
def lerRestricoes : Restricoes → Limites × Bool
  | Restricoes.nenhuma => (⟨Option.none, 0, 0⟩, false)
  | Restricoes.malformada => (⟨Option.none, 0, 0⟩, true)
  | Restricoes.tabela rows =>
      (⟨dictGet rows "Volume Máximo",
        (dictGet rows "Volume Mínimo Operacional").getD 0,
        (dictGet rows "Volume Morto").getD 0⟩, false)

/-- Coefficients of the fitted degree-3 area polynomial, stored in
ascending order of degree (numpy stores the same four numbers highest
degree first; only the evaluated polynomial matters here). -/
structure Coef3 where
  c0 : ℚ
  c1 : ℚ
  c2 : ℚ
  c3 : ℚ
deriving DecidableEq

/-- Embedding of `np.poly1d(coef)` applied to a volume (line 15/40). -/
def polyEval (c : Coef3) (v : ℚ) : ℚ :=
  c.c0 + c.c1 * v + c.c2 * v ^ 2 + c.c3 * v ^ 3

/-- Sum Σ xᵏ over the sampled volumes, an entry of the normal matrix of
the least-squares fit. -/
def powerSum (xs : List ℚ) (k : ℕ) : ℚ := (xs.map (fun x => x ^ k)).sum

/-- Sum Σ xᵏ·y over the samples, an entry of the right-hand side of the
normal equations of the least-squares fit. -/
def momentSum (xs ys : List ℚ) (k : ℕ) : ℚ :=
  (List.zipWith (fun x y => x ^ k * y) xs ys).sum

/-- Determinant of a 3×3 matrix given row by row. -/
def det3 (a b c d e f g h i : ℚ) : ℚ :=
  a * (e * i - f * h) - b * (d * i - f * g) + c * (d * h - e * g)

/-- Determinant of a 4×4 matrix given row by row, by expansion along the
first row. -/
def det4 (a b c d e f g h i j k l m n o p : ℚ) : ℚ :=
  a * det3 f g h j k l n o p
    - b * det3 e g h i k l m o p
    + c * det3 e f h i j l m n p
    - d * det3 e f g i j k m n o

/-- Embedding of `np.polyfit(vol, area, deg=3)` (line 14), per numpy's
documented behaviour.  `np.polyfit` raises (aborting the caller) only when
the abscissa vector is empty (`TypeError: expected non-empty vector`) or
when every abscissa is 0, in which case numpy's internal column scaling
divides by zero and the LAPACK least-squares solve fails on the resulting
non-finite matrix; both abort cases are embedded as `Option.none`.  With
fewer than 4 distinct abscissae the system is rank-deficient: numpy emits
a `RankWarning`, which is a warning and not an exception, and still
returns coefficients.  The well-determined solve is embedded exactly by
Cramer's rule on the normal equations of the degree-3 ordinary
least-squares problem; in the rank-deficient case (singular normal matrix)
numpy returns a minimum-norm solution, embedded here as the zero
polynomial — no theorem below depends on the coefficient values of a
rank-deficient fit, only on the fact that the call returns instead of
raising.  `fitCoef` is the returned coefficient vector, `polyfit3` adds
the raise condition. -/
def fitCoef (xs ys : List ℚ) : Coef3 :=
  let s0 := powerSum xs 0
  let s1 := powerSum xs 1
  let s2 := powerSum xs 2
  let s3 := powerSum xs 3
  let s4 := powerSum xs 4
  let s5 := powerSum xs 5
  let s6 := powerSum xs 6
  let b0 := momentSum xs ys 0
  let b1 := momentSum xs ys 1
  let b2 := momentSum xs ys 2
  let b3 := momentSum xs ys 3
  let Δ := det4 s0 s1 s2 s3 s1 s2 s3 s4 s2 s3 s4 s5 s3 s4 s5 s6
  if Δ = 0 then ⟨0, 0, 0, 0⟩
  else
    ⟨det4 b0 s1 s2 s3 b1 s2 s3 s4 b2 s3 s4 s5 b3 s4 s5 s6 / Δ,
     det4 s0 b0 s2 s3 s1 b1 s3 s4 s2 b2 s4 s5 s3 b3 s5 s6 / Δ,
     det4 s0 s1 b0 s3 s1 s2 b1 s4 s2 s3 b2 s5 s3 s4 b3 s6 / Δ,
     det4 s0 s1 s2 b0 s1 s2 s3 b1 s2 s3 s4 b2 s3 s4 s5 b3 / Δ⟩

/-- Raise condition of `np.polyfit` composed with the least-squares solve
of `fitCoef`; see the comment on `fitCoef`. -/
def polyfit3 (xs ys : List ℚ) : Option Coef3 :=
  if xs.isEmpty ∨ xs.all (fun x => x = 0) then Option.none
  else Option.some (fitCoef xs ys)

/-- Lines 51–54: the alerts appended for one step whose post-clamp volume
is `v`, where `tIdx` is the 0-based loop index `t` (the message cites
month `t + 1`).  The two comparisons are independent `if` statements, so
both alerts can be appended in the same step. -/
def alertaPasso (lim : Limites) (tIdx : ℕ) (v : ℚ) : List Alerta :=
  (if v < lim.volumeMinOper
    then [⟨tIdx + 1, TipoAlerta.minimoOperacional, round2 v⟩] else []) ++
  (if v < lim.volumeMorto
    then [⟨tIdx + 1, TipoAlerta.volumeMorto, round2 v⟩] else [])

/-- Values recorded by one iteration of the loop body (lines 39–58). -/
structure PassoOut where
  evap : ℚ
  retirada : ℚ
  vAtual : ℚ
  alertas : List Alerta
deriving DecidableEq

/-- One iteration of the loop body, lines 39–54, translated statement by
statement: `a = max(area_func(v_ant) * 1e6, 0)`; `evap_m`;
`evap_volume = a * evap_m / 1e6`; `retirada = min(demanda, max(0, v_ant +
afluencia − evap_volume))`; then `v_atual` is clamped below at 0 (line 48)
and only afterwards clamped above at `volume_max` (line 49). -/
def passo (f : ℚ → ℚ) (lim : Limites) (tIdx : ℕ)
    (vAnt afluencia demanda evapMm : ℚ) : PassoOut :=
  let a := max (f vAnt * 1000000) 0
  let evapM := evapMm / 1000
  let evapVolume := a * evapM / 1000000
  let retirada := min demanda (max 0 (vAnt + afluencia - evapVolume))
  let v1 := vAnt + afluencia - evapVolume - retirada
  let v2 := max v1 0
  let v3 := minCap v2 lim.volumeMax
  ⟨evapVolume, retirada, v3, alertaPasso lim tIdx v3⟩

/-- Result bundle returned at lines 60–65: `volumes[1:]`, `retiradas`,
`evaporacao` and the accumulated alert list. -/
structure Resultado where
  volumes : List ℚ
  retiradas : List ℚ
  evaporacao : List ℚ
  alertas : List Alerta
deriving DecidableEq

/-- The loop of lines 38–58.  The iteration count is `len(afluencias)`
(line 30), so recursion is on the inflow list; each step reads
`demandas[t]` and `evaporacao_mm[t]`, and a missing entry is Python's
`IndexError` aborting the call, embedded as `Option.none`. -/
def simulaLoop (f : ℚ → ℚ) (lim : Limites) :
    List ℚ → List ℚ → List ℚ → ℕ → ℚ → Option Resultado
  | [], _, _, _, _ => Option.some ⟨[], [], [], []⟩
  | a :: afl, d :: dem, e :: ev, t, v =>
      let p := passo f lim t v a d e
      match simulaLoop f lim afl dem ev (t + 1) p.vAtual with
      | Option.none => Option.none
      | Option.some r =>
          Option.some ⟨p.vAtual :: r.volumes, p.retirada :: r.retiradas,
            p.evap :: r.evaporacao, p.alertas ++ r.alertas⟩
  | _ :: _, _, _, _, _ => Option.none

/-- Full embedding of `simular_reservatorio` (lines 11–65): fit the
degree-3 area polynomial from the volume/area table, resolve the
operational limits (recording whether line 28 warned), and run the step
loop from the initial volume.  `Option.none` is an exception escaping the
Python function (fit failure or `IndexError`); otherwise the result bundle
is returned together with the warning flag. -/
def simular_reservatorio (volumeInicial : ℚ) (curvaAV : List (ℚ × ℚ))
    (afluencias demandas evaporacaoMm : List ℚ) (restricoes : Restricoes) :
    Option (Resultado × Bool) :=
  match polyfit3 (curvaAV.map Prod.fst) (curvaAV.map Prod.snd) with
  | Option.none => Option.none
  | Option.some c =>
      match simulaLoop (polyEval c) (lerRestricoes restricoes).1
          afluencias demandas evaporacaoMm 0 volumeInicial with
      | Option.none => Option.none
      | Option.some r => Option.some (r, (lerRestricoes restricoes).2)

/-- Volume at the start of step `i`: `volumes[i]` of the Python array
(line 39), which is the initial volume for `i = 0` and the recorded
post-step volume of step `i − 1` afterwards. -/
def volAnterior (v0 : ℚ) (vols : List ℚ) : ℕ → ℚ
  | 0 => v0
  | i + 1 => vols.getD i 0

/-- Alert list produced by a whole run whose recorded post-step volumes
are `vols`, with `t` the 0-based index of the first step: concatenation,
in step order, of each step's alerts. -/
def alertasDe (lim : Limites) : ℕ → List ℚ → List Alerta
  | _, [] => []
  | t, v :: vs => alertaPasso lim t v ++ alertasDe lim (t + 1) vs

/-! ### Supporting lemmas -/

theorem passo_alertas (f : ℚ → ℚ) (lim : Limites) (t : ℕ) (v a d e : ℚ) :
    (passo f lim t v a d e).alertas =
      alertaPasso lim t (passo f lim t v a d e).vAtual := rfl

theorem passo_evap (f : ℚ → ℚ) (lim : Limites) (t : ℕ) (v a d e : ℚ) :
    (passo f lim t v a d e).evap =
      max (f v * 1000000) 0 * (e / 1000) / 1000000 := rfl

theorem passo_retirada (f : ℚ → ℚ) (lim : Limites) (t : ℕ) (v a d e : ℚ) :
    (passo f lim t v a d e).retirada =
      min d (max 0 (v + a - (passo f lim t v a d e).evap)) := rfl

theorem passo_vAtual (f : ℚ → ℚ) (lim : Limites) (t : ℕ) (v a d e : ℚ) :
    (passo f lim t v a d e).vAtual =
      minCap
        (max (v + a - (passo f lim t v a d e).evap -
          (passo f lim t v a d e).retirada) 0)
        lim.volumeMax := rfl

theorem volAnterior_cons (v0 x : ℚ) (vs : List ℚ) (j : ℕ) :
    volAnterior v0 (x :: vs) (j + 1) = volAnterior x vs j := by
  cases j <;> simp [volAnterior]

theorem alertaPasso_length_le (lim : Limites) (t : ℕ) (v : ℚ) :
    (alertaPasso lim t v).length ≤ 2 := by
  unfold alertaPasso
  split <;> split <;> simp

theorem alertasDe_length_le (lim : Limites) :
    ∀ (t : ℕ) (vs : List ℚ), (alertasDe lim t vs).length ≤ 2 * vs.length := by
  intro t vs
  induction vs generalizing t with
  | nil => simp [alertasDe]
  | cons v vs ih =>
      have h1 := alertaPasso_length_le lim t v
      have h2 := ih (t + 1)
      simp only [alertasDe, List.length_append, List.length_cons]
      omega

theorem mem_alertaPasso {lim : Limites} {t : ℕ} {v : ℚ} {x : Alerta} :
    x ∈ alertaPasso lim t v ↔
      (v < lim.volumeMinOper ∧
        x = ⟨t + 1, TipoAlerta.minimoOperacional, round2 v⟩) ∨
      (v < lim.volumeMorto ∧ x = ⟨t + 1, TipoAlerta.volumeMorto, round2 v⟩) := by
  unfold alertaPasso
  split <;> split <;> simp_all

theorem mem_alertasDe {lim : Limites} :
    ∀ {t : ℕ} {vs : List ℚ} {x : Alerta},
      x ∈ alertasDe lim t vs ↔
        ∃ i, i < vs.length ∧ x ∈ alertaPasso lim (t + i) (vs.getD i 0) := by
  intro t vs
  induction vs generalizing t with
  | nil => simp [alertasDe]
  | cons v vs ih =>
      intro x
      simp only [alertasDe, List.mem_append, ih, List.length_cons]
      constructor
      · rintro (hx | ⟨i, hi, hx⟩)
        · exact ⟨0, by omega, by simpa using hx⟩
        · refine ⟨i + 1, by omega, ?_⟩
          have : t + (i + 1) = t + 1 + i := by omega
          rw [this]
          simpa using hx
      · rintro ⟨i, hi, hx⟩
        cases i with
        | zero => exact Or.inl (by simpa using hx)
        | succ i =>
            refine Or.inr ⟨i, by omega, ?_⟩
            have : t + 1 + i = t + (i + 1) := by omega
            rw [this]
            simpa using hx

/-- Characterization of a successful run of the step loop: the three
recorded sequences have the loop's length, the alert list is the step-wise
concatenation determined by the recorded volumes, and each recorded entry
is the corresponding component of `passo` evaluated at the start-of-step
volume and the step's inputs. -/
theorem simulaLoop_spec (f : ℚ → ℚ) (lim : Limites) (afl : List ℚ) :
    ∀ (dem ev : List ℚ) (t0 : ℕ) (v0 : ℚ) (r : Resultado),
      simulaLoop f lim afl dem ev t0 v0 = Option.some r →
      (r.volumes.length = afl.length ∧ r.retiradas.length = afl.length ∧
        r.evaporacao.length = afl.length) ∧
      r.alertas = alertasDe lim t0 r.volumes ∧
      ∀ i, i < afl.length →
        r.evaporacao.getD i 0 = (passo f lim (t0 + i) (volAnterior v0 r.volumes i)
          (afl.getD i 0) (dem.getD i 0) (ev.getD i 0)).evap ∧
        r.retiradas.getD i 0 = (passo f lim (t0 + i) (volAnterior v0 r.volumes i)
          (afl.getD i 0) (dem.getD i 0) (ev.getD i 0)).retirada ∧
        r.volumes.getD i 0 = (passo f lim (t0 + i) (volAnterior v0 r.volumes i)
          (afl.getD i 0) (dem.getD i 0) (ev.getD i 0)).vAtual := by
  induction afl with
  | nil =>
      intro dem ev t0 v0 r h
      simp only [simulaLoop, Option.some.injEq] at h
      subst h
      refine ⟨by simp, by simp [alertasDe], ?_⟩
      intro i hi
      simp at hi
  | cons a afl ih =>
      intro dem ev t0 v0 r h
      rcases dem with _ | ⟨d, dem⟩
      · simp only [simulaLoop] at h
        exact Option.noConfusion h
      · rcases ev with _ | ⟨e, ev⟩
        · simp only [simulaLoop] at h
          exact Option.noConfusion h
        · rw [simulaLoop] at h
          rcases hrec : simulaLoop f lim afl dem ev (t0 + 1)
              (passo f lim t0 v0 a d e).vAtual with _ | r'
          · rw [hrec] at h
            simp at h
          · rw [hrec] at h
            simp only [Option.some.injEq] at h
            subst h
            obtain ⟨⟨hlv, hlr, hle⟩, halr, hidx⟩ := ih dem ev (t0 + 1)
              (passo f lim t0 v0 a d e).vAtual r' hrec
            refine ⟨⟨by simp [hlv], by simp [hlr], by simp [hle]⟩, ?_, ?_⟩
            · show (passo f lim t0 v0 a d e).alertas ++ r'.alertas = _
              rw [passo_alertas, halr]
              rfl
            · intro i hi
              cases i with
              | zero =>
                  refine ⟨?_, ?_, ?_⟩ <;> simp [volAnterior]
              | succ i =>
                  have hi' : i < afl.length := by
                    simp only [List.length_cons] at hi
                    omega
                  have ht : t0 + (i + 1) = t0 + 1 + i := by omega
                  have hv := volAnterior_cons v0 (passo f lim t0 v0 a d e).vAtual
                    r'.volumes i
                  obtain ⟨h1, h2, h3⟩ := hidx i hi'
                  refine ⟨?_, ?_, ?_⟩ <;>
                    simp only [List.getD_cons_succ, ht, hv, h1, h2, h3]

/-- The loop never aborts when the demand and evaporation series are at
least as long as the inflow series (no `IndexError`). -/
theorem simulaLoop_isSome (f : ℚ → ℚ) (lim : Limites) (afl : List ℚ) :
    ∀ (dem ev : List ℚ) (t0 : ℕ) (v0 : ℚ),
      afl.length ≤ dem.length → afl.length ≤ ev.length →
      (simulaLoop f lim afl dem ev t0 v0).isSome = true := by
  induction afl with
  | nil =>
      intro dem ev t0 v0 _ _
      simp [simulaLoop]
  | cons a afl ih =>
      intro dem ev t0 v0 hd he
      rcases dem with _ | ⟨d, dem⟩
      · simp at hd
      · rcases ev with _ | ⟨e, ev⟩
        · simp at he
        · rw [simulaLoop]
          simp only [List.length_cons, Nat.add_le_add_iff_right] at hd he
          have := ih dem ev (t0 + 1) (passo f lim t0 v0 a d e).vAtual hd he
          rcases hrec : simulaLoop f lim afl dem ev (t0 + 1)
              (passo f lim t0 v0 a d e).vAtual with _ | r'
          · rw [hrec] at this
            simp at this
          · rfl

/-- Unpacking a successful top-level run into its fit coefficients, the
successful loop, and the warning flag. -/
theorem simular_eq_some {v0 : ℚ} {curva : List (ℚ × ℚ)}
    {afl dem ev : List ℚ} {restr : Restricoes} {r : Resultado} {w : Bool}
    (h : simular_reservatorio v0 curva afl dem ev restr =
      Option.some (r, w)) :
    ∃ c, polyfit3 (curva.map Prod.fst) (curva.map Prod.snd) =
        Option.some c ∧
      simulaLoop (polyEval c) (lerRestricoes restr).1 afl dem ev 0 v0 =
        Option.some r ∧
      w = (lerRestricoes restr).2 := by
  unfold simular_reservatorio at h
  split at h
  · exact Option.noConfusion h
  · rename_i c hc
    split at h
    · exact Option.noConfusion h
    · rename_i r' hl
      simp only [Option.some.injEq, Prod.mk.injEq] at h
      exact ⟨c, hc, by rw [hl, h.1], h.2.symm⟩

/-! ### Claims -/

/-- Claim C1 is false as stated: the code applies the clamps in the other
order.  Line 48 first clamps below at 0 and line 49 then clamps above at
`volume_max`, so `v_next = min(max(v + inflow − evap − release, 0),
MaximumVolume)`.  At this input (`v₀ = 3`, zero series, constraints table
setting `Volume Máximo = −5`) the run records the volume `−5`, while the
claim's formula `max(0, min(v + inflow − evap − release, MaximumVolume))`
yields `0`. -/
theorem c1_ordem_clamps_contraexemplo :
    simular_reservatorio 3 [(0, 0), (1, 0), (2, 0), (3, 0)] [0] [0] [0]
        (Restricoes.tabela [("Volume Máximo", -5)]) =
      Option.some (⟨[-5], [0], [0],
        [⟨1, TipoAlerta.minimoOperacional, -5⟩,
         ⟨1, TipoAlerta.volumeMorto, -5⟩]⟩, false) ∧
    max (0 : ℚ) (min (3 + 0 - 0 - 0) (-5)) = 0 ∧ (-5 : ℚ) ≠ 0 := by
  have hr : lerRestricoes (Restricoes.tabela [("Volume Máximo", -5)]) =
      (⟨Option.some (-5), 0, 0⟩, false) := by
    simp [lerRestricoes, dictGet, lookupFirst]
  refine ⟨?_, by norm_num [max_def, min_def], by norm_num⟩
  norm_num [simular_reservatorio, polyfit3, fitCoef, powerSum, momentSum, det4, det3,
    hr, simulaLoop, passo, polyEval, minCap, alertaPasso, round2, round_eq]

/-- Claim C1, amended: at every step the run records
`v_next = min(max(v + inflow[t] − evap_volume − release, 0), MaximumVolume)`
— the lower clamp at 0 is applied first and the upper clamp at
`MaximumVolume` after it, so a negative `MaximumVolume` is recorded
as-is.  Whenever `MaximumVolume` is non-negative (and whenever it is
absent) this coincides with the claim's `max(0, min(·, MaximumVolume))`. -/
theorem c1_ordem_clamps (v0 : ℚ) (curva : List (ℚ × ℚ))
    (afl dem ev : List ℚ) (restr : Restricoes) (r : Resultado) (w : Bool)
    (h : simular_reservatorio v0 curva afl dem ev restr =
      Option.some (r, w)) :
    ∀ i, i < afl.length →
      r.volumes.getD i 0 =
        minCap (max (volAnterior v0 r.volumes i + afl.getD i 0 -
          r.evaporacao.getD i 0 - r.retiradas.getD i 0) 0)
          (lerRestricoes restr).1.volumeMax ∧
      ∀ m, (lerRestricoes restr).1.volumeMax = Option.some m → 0 ≤ m →
        r.volumes.getD i 0 =
          max 0 (min (volAnterior v0 r.volumes i + afl.getD i 0 -
            r.evaporacao.getD i 0 - r.retiradas.getD i 0) m) := by
  intro i hi
  obtain ⟨c, hc, hl, hw⟩ := simular_eq_some h
  obtain ⟨_, _, hidx⟩ :=
    simulaLoop_spec (polyEval c) (lerRestricoes restr).1 afl dem ev 0 v0 r hl
  obtain ⟨he, hrt, hv⟩ := hidx i hi
  constructor
  · rw [hv, passo_vAtual, he, hrt]
  · intro m hm hm0
    rw [hv, passo_vAtual, he, hrt, hm]
    show min _ m = _
    rw [max_min_distrib_left, max_eq_right hm0, max_comm]

/-- Witness for the amended C1 at a concrete input: `v₀ = 2`, one step
with inflow 1 and `Volume Máximo = 1`, where the recorded volume is the
cap 1. -/
theorem c1_ordem_clamps_witness :
    ((⟨[1], [0], [0], []⟩ : Resultado).volumes.getD 0 0 =
      minCap (max (volAnterior 2 (⟨[1], [0], [0], []⟩ : Resultado).volumes 0 +
          [(1 : ℚ)].getD 0 0 -
          (⟨[1], [0], [0], []⟩ : Resultado).evaporacao.getD 0 0 -
          (⟨[1], [0], [0], []⟩ : Resultado).retiradas.getD 0 0) 0)
        (lerRestricoes (Restricoes.tabela [("Volume Máximo", 1)])).1.volumeMax) ∧
    ((⟨[1], [0], [0], []⟩ : Resultado).volumes.getD 0 0 =
      max 0 (min (volAnterior 2 (⟨[1], [0], [0], []⟩ : Resultado).volumes 0 +
          [(1 : ℚ)].getD 0 0 -
          (⟨[1], [0], [0], []⟩ : Resultado).evaporacao.getD 0 0 -
          (⟨[1], [0], [0], []⟩ : Resultado).retiradas.getD 0 0) 1)) := by
  have hra : lerRestricoes (Restricoes.tabela [("Volume Máximo", 1)]) =
      (⟨Option.some 1, 0, 0⟩, false) := by
    simp [lerRestricoes, dictGet, lookupFirst]
  have h : simular_reservatorio 2 [(0, 0), (1, 0), (2, 0), (3, 0)] [1] [0] [0]
      (Restricoes.tabela [("Volume Máximo", 1)]) =
      Option.some (⟨[1], [0], [0], []⟩, false) := by
    norm_num [simular_reservatorio, polyfit3, fitCoef, powerSum, momentSum, det4, det3,
      hra, simulaLoop, passo, polyEval, minCap, alertaPasso, round2, round_eq]
  have hmain := c1_ordem_clamps 2 [(0, 0), (1, 0), (2, 0), (3, 0)] [1] [0] [0]
    (Restricoes.tabela [("Volume Máximo", 1)]) ⟨[1], [0], [0], []⟩ false h
    0 (by norm_num)
  exact ⟨hmain.1, hmain.2 1 (by rw [hra]) (by norm_num)⟩

/-- Claim C2: at every step the recorded release is
`min(demand[t], max(0, v + inflow[t] − evap_volume))` with `v` the
start-of-step volume; hence with a non-negative demand the release lies
between 0 and the demand. -/
theorem c2_retirada (v0 : ℚ) (curva : List (ℚ × ℚ))
    (afl dem ev : List ℚ) (restr : Restricoes) (r : Resultado) (w : Bool)
    (h : simular_reservatorio v0 curva afl dem ev restr =
      Option.some (r, w)) :
    ∀ i, i < afl.length →
      r.retiradas.getD i 0 =
        min (dem.getD i 0) (max 0 (volAnterior v0 r.volumes i +
          afl.getD i 0 - r.evaporacao.getD i 0)) ∧
      (0 ≤ dem.getD i 0 →
        0 ≤ r.retiradas.getD i 0 ∧ r.retiradas.getD i 0 ≤ dem.getD i 0) := by
  intro i hi
  obtain ⟨c, hc, hl, hw⟩ := simular_eq_some h
  obtain ⟨_, _, hidx⟩ :=
    simulaLoop_spec (polyEval c) (lerRestricoes restr).1 afl dem ev 0 v0 r hl
  obtain ⟨he, hrt, hv⟩ := hidx i hi
  refine ⟨by rw [hrt, passo_retirada, he], ?_⟩
  intro hd
  rw [hrt, passo_retirada]
  exact ⟨le_min hd (le_max_left 0 _), min_le_left _ _⟩

/-- Witness for C2 at a concrete input: `v₀ = 5`, inflow 2, demand 3, no
evaporation — release is 3 and the bundle is
`⟨[4], [3], [0], []⟩`. -/
theorem c2_retirada_witness :
    ((⟨[4], [3], [0], []⟩ : Resultado).retiradas.getD 0 0 =
      min ([(3 : ℚ)].getD 0 0)
        (max 0 (volAnterior 5 (⟨[4], [3], [0], []⟩ : Resultado).volumes 0 +
          [(2 : ℚ)].getD 0 0 -
          (⟨[4], [3], [0], []⟩ : Resultado).evaporacao.getD 0 0))) ∧
    0 ≤ (⟨[4], [3], [0], []⟩ : Resultado).retiradas.getD 0 0 ∧
    (⟨[4], [3], [0], []⟩ : Resultado).retiradas.getD 0 0 ≤
      [(3 : ℚ)].getD 0 0 := by
  have h : simular_reservatorio 5 [(0, 0), (1, 0), (2, 0), (3, 0)] [2] [3] [0]
      Restricoes.nenhuma = Option.some (⟨[4], [3], [0], []⟩, false) := by
    norm_num [simular_reservatorio, polyfit3, fitCoef, powerSum, momentSum, det4, det3,
      lerRestricoes, simulaLoop, passo, polyEval, minCap, alertaPasso,
      round2, round_eq]
  have hmain := c2_retirada 5 [(0, 0), (1, 0), (2, 0), (3, 0)] [2] [3] [0]
    Restricoes.nenhuma ⟨[4], [3], [0], []⟩ false h 0 (by norm_num)
  exact ⟨hmain.1, (hmain.2 (by norm_num)).1, (hmain.2 (by norm_num)).2⟩

/-- Claim C3: at every step the recorded evaporation loss is
`max(f(v), 0) * 1e6 * (evap_rate_mm[t] / 1000) / 1e6` where `f` is the
fitted area polynomial and `v` the volume at the start of the step (not
the post-inflow volume); in particular it is non-negative for a
non-negative evaporation rate, even when the raw polynomial evaluates
negative. -/
theorem c3_evaporacao (v0 : ℚ) (curva : List (ℚ × ℚ))
    (afl dem ev : List ℚ) (restr : Restricoes) (r : Resultado) (w : Bool)
    (c : Coef3)
    (hc : polyfit3 (curva.map Prod.fst) (curva.map Prod.snd) =
      Option.some c)
    (h : simular_reservatorio v0 curva afl dem ev restr =
      Option.some (r, w)) :
    ∀ i, i < afl.length →
      r.evaporacao.getD i 0 =
        max (polyEval c (volAnterior v0 r.volumes i)) 0 * 1000000 *
          (ev.getD i 0 / 1000) / 1000000 ∧
      (0 ≤ ev.getD i 0 → 0 ≤ r.evaporacao.getD i 0) := by
  intro i hi
  obtain ⟨c', hc', hl, hw⟩ := simular_eq_some h
  have hcc : c' = c := by
    rw [hc] at hc'
    exact (Option.some.inj hc').symm
  subst hcc
  obtain ⟨_, _, hidx⟩ :=
    simulaLoop_spec (polyEval c') (lerRestricoes restr).1 afl dem ev 0 v0 r hl
  obtain ⟨he, hrt, hv⟩ := hidx i hi
  constructor
  · rw [he, passo_evap,
      max_mul_of_nonneg _ _ (by norm_num : (0 : ℚ) ≤ 1000000), zero_mul]
  · intro hev
    rw [he, passo_evap]
    exact div_nonneg
      (mul_nonneg (le_max_right _ 0) (div_nonneg hev (by norm_num)))
      (by norm_num)

/-- Witness for C3 at a concrete input whose fitted polynomial is the
constant `−1` (every sampled area is −1): the raw polynomial is negative
at the start-of-step volume 2, yet the recorded evaporation is
`max(−1, 0) * 1e6 * (100/1000) / 1e6 = 0 ≥ 0`. -/
theorem c3_evaporacao_witness :
    ((⟨[2], [0], [0], []⟩ : Resultado).evaporacao.getD 0 0 =
      max (polyEval ⟨-1, 0, 0, 0⟩
          (volAnterior 2 (⟨[2], [0], [0], []⟩ : Resultado).volumes 0)) 0 *
        1000000 * ([(100 : ℚ)].getD 0 0 / 1000) / 1000000) ∧
    0 ≤ (⟨[2], [0], [0], []⟩ : Resultado).evaporacao.getD 0 0 := by
  have hc : polyfit3 (([(0, -1), (1, -1), (2, -1), (3, -1)] :
        List (ℚ × ℚ)).map Prod.fst)
      (([(0, -1), (1, -1), (2, -1), (3, -1)] : List (ℚ × ℚ)).map Prod.snd) =
      Option.some ⟨-1, 0, 0, 0⟩ := by
    norm_num [polyfit3, fitCoef, powerSum, momentSum, det4, det3]
  have h : simular_reservatorio 2 [(0, -1), (1, -1), (2, -1), (3, -1)]
      [0] [0] [100] Restricoes.nenhuma =
      Option.some (⟨[2], [0], [0], []⟩, false) := by
    norm_num [simular_reservatorio, polyfit3, fitCoef, powerSum, momentSum, det4, det3,
      lerRestricoes, simulaLoop, passo, polyEval, minCap, alertaPasso,
      round2, round_eq]
  have hmain := c3_evaporacao 2 [(0, -1), (1, -1), (2, -1), (3, -1)]
    [0] [0] [100] Restricoes.nenhuma ⟨[2], [0], [0], []⟩ false ⟨-1, 0, 0, 0⟩
    hc h 0 (by norm_num)
  exact ⟨hmain.1, hmain.2 (by norm_num)⟩

theorem getD_nonneg {l : List ℚ} {i : ℕ} (hl : ∀ x ∈ l, 0 ≤ x)
    (hi : i < l.length) : 0 ≤ l.getD i 0 := by
  rw [List.getD_eq_getElem l 0 hi]
  exact hl _ (List.getElem_mem hi)

/-- Claim C4 is false as stated: with a negative `Volume Máximo`
constraint — the claim's validity conditions restrict only the initial
volume and the three series — the run records a negative volume.  Here
`v₀ = 1 ≥ 0` and all series are `[0]`, yet `volumes[0] = −2 < 0`. -/
theorem c4_limites_saida_contraexemplo :
    simular_reservatorio 1 [(0, 0), (1, 0), (2, 0), (3, 0)] [0] [0] [0]
        (Restricoes.tabela [("Volume Máximo", -2)]) =
      Option.some (⟨[-2], [0], [0],
        [⟨1, TipoAlerta.minimoOperacional, -2⟩,
         ⟨1, TipoAlerta.volumeMorto, -2⟩]⟩, false) ∧
    (0 ≤ (1 : ℚ) ∧ ∀ x ∈ ([0] : List ℚ), 0 ≤ x) ∧ ¬(0 ≤ (-2 : ℚ)) := by
  have hra : lerRestricoes (Restricoes.tabela [("Volume Máximo", -2)]) =
      (⟨Option.some (-2), 0, 0⟩, false) := by
    simp [lerRestricoes, dictGet, lookupFirst]
  refine ⟨?_, ⟨by norm_num, by norm_num⟩, by norm_num⟩
  norm_num [simular_reservatorio, polyfit3, fitCoef, powerSum, momentSum, det4, det3,
    hra, simulaLoop, passo, polyEval, minCap, alertaPasso, round2, round_eq]

/-- Claim C4, amended: for valid inputs (non-negative initial volume and
non-negative equal-length series) *and a non-negative `Volume Máximo`
when one is given*, every recorded volume lies in `[0, MaximumVolume]`,
every recorded release lies in `[0, demand[t]]`, and every recorded
evaporation is non-negative. -/
theorem c4_limites_saida (v0 : ℚ) (curva : List (ℚ × ℚ))
    (afl dem ev : List ℚ) (restr : Restricoes) (r : Resultado) (w : Bool)
    (h : simular_reservatorio v0 curva afl dem ev restr =
      Option.some (r, w))
    (hv0 : 0 ≤ v0) (hafl : ∀ x ∈ afl, 0 ≤ x)
    (hdem : ∀ x ∈ dem, 0 ≤ x) (hev : ∀ x ∈ ev, 0 ≤ x)
    (hdl : dem.length = afl.length) (hevl : ev.length = afl.length)
    (hM : ∀ m, (lerRestricoes restr).1.volumeMax = Option.some m → 0 ≤ m) :
    ∀ i, i < afl.length →
      (0 ≤ r.volumes.getD i 0 ∧
        ∀ m, (lerRestricoes restr).1.volumeMax = Option.some m →
          r.volumes.getD i 0 ≤ m) ∧
      (0 ≤ r.retiradas.getD i 0 ∧ r.retiradas.getD i 0 ≤ dem.getD i 0) ∧
      0 ≤ r.evaporacao.getD i 0 := by
  intro i hi
  obtain ⟨c, hc, hl, hw⟩ := simular_eq_some h
  obtain ⟨_, _, hidx⟩ :=
    simulaLoop_spec (polyEval c) (lerRestricoes restr).1 afl dem ev 0 v0 r hl
  obtain ⟨he, hrt, hv⟩ := hidx i hi
  have hevn : 0 ≤ r.evaporacao.getD i 0 := by
    rw [he, passo_evap]
    exact div_nonneg
      (mul_nonneg (le_max_right _ 0)
        (div_nonneg (getD_nonneg hev (by omega)) (by norm_num)))
      (by norm_num)
  refine ⟨?_, ⟨?_, ?_⟩, hevn⟩
  · rw [hv, passo_vAtual]
    rcases hMM : (lerRestricoes restr).1.volumeMax with _ | m
    · refine ⟨le_max_right _ 0, ?_⟩
      intro m hm
      exact Option.noConfusion hm
    · refine ⟨le_min (le_max_right _ 0) (hM m hMM), ?_⟩
      intro m' hm'
      rw [← Option.some.inj hm']
      exact min_le_right _ _
  · rw [hrt, passo_retirada]
    exact le_min (getD_nonneg hdem (by omega)) (le_max_left 0 _)
  · rw [hrt, passo_retirada]
    exact min_le_left _ _

/-- Witness for the amended C4 at a concrete input: `v₀ = 1`, inflow 1,
cap `Volume Máximo = 5`; the bundle is `⟨[2], [0], [0], []⟩` and all
bounds hold. -/
theorem c4_limites_saida_witness :
    (0 ≤ (⟨[2], [0], [0], []⟩ : Resultado).volumes.getD 0 0 ∧
      (⟨[2], [0], [0], []⟩ : Resultado).volumes.getD 0 0 ≤ 5) ∧
    (0 ≤ (⟨[2], [0], [0], []⟩ : Resultado).retiradas.getD 0 0 ∧
      (⟨[2], [0], [0], []⟩ : Resultado).retiradas.getD 0 0 ≤
        [(0 : ℚ)].getD 0 0) ∧
    0 ≤ (⟨[2], [0], [0], []⟩ : Resultado).evaporacao.getD 0 0 := by
  have hra : lerRestricoes (Restricoes.tabela [("Volume Máximo", 5)]) =
      (⟨Option.some 5, 0, 0⟩, false) := by
    simp [lerRestricoes, dictGet, lookupFirst]
  have h : simular_reservatorio 1 [(0, 0), (1, 0), (2, 0), (3, 0)] [1] [0] [0]
      (Restricoes.tabela [("Volume Máximo", 5)]) =
      Option.some (⟨[2], [0], [0], []⟩, false) := by
    norm_num [simular_reservatorio, polyfit3, fitCoef, powerSum, momentSum, det4, det3,
      hra, simulaLoop, passo, polyEval, minCap, alertaPasso, round2, round_eq]
  have hmain := c4_limites_saida 1 [(0, 0), (1, 0), (2, 0), (3, 0)] [1] [0] [0]
    (Restricoes.tabela [("Volume Máximo", 5)]) ⟨[2], [0], [0], []⟩ false h
    (by norm_num) (by norm_num) (by norm_num) (by norm_num) rfl rfl
    (by intro m hm
        rw [hra] at hm
        rw [← Option.some.inj hm]
        norm_num)
    0 (by norm_num)
  exact ⟨⟨hmain.1.1, hmain.1.2 5 (by rw [hra])⟩, hmain.2.1, hmain.2.2⟩

/-- Claim C5: the alert list of a run is exactly the step-by-step
concatenation determined by the recorded volumes — for each step `t`, an
alert for month `t + 1` carrying the volume rounded to two decimals is
present for the operational minimum exactly when `v_next <
MinimumOperationalVolume`, and an independent one for the dead volume
exactly when `v_next < DeadVolume` (both can occur for the same month) —
and the alert list length is at most `2N`. -/
theorem c5_alertas (v0 : ℚ) (curva : List (ℚ × ℚ)) (afl dem ev : List ℚ)
    (restr : Restricoes) (r : Resultado) (w : Bool)
    (h : simular_reservatorio v0 curva afl dem ev restr =
      Option.some (r, w)) :
    r.alertas = alertasDe (lerRestricoes restr).1 0 r.volumes ∧
    r.alertas.length ≤ 2 * afl.length ∧
    ∀ i, i < afl.length →
      ((⟨i + 1, TipoAlerta.minimoOperacional,
          round2 (r.volumes.getD i 0)⟩ : Alerta) ∈ r.alertas ↔
        r.volumes.getD i 0 < (lerRestricoes restr).1.volumeMinOper) ∧
      ((⟨i + 1, TipoAlerta.volumeMorto,
          round2 (r.volumes.getD i 0)⟩ : Alerta) ∈ r.alertas ↔
        r.volumes.getD i 0 < (lerRestricoes restr).1.volumeMorto) := by
  obtain ⟨c, hc, hl, hw⟩ := simular_eq_some h
  obtain ⟨⟨hlv, _, _⟩, hal, _⟩ :=
    simulaLoop_spec (polyEval c) (lerRestricoes restr).1 afl dem ev 0 v0 r hl
  refine ⟨hal, ?_, ?_⟩
  · rw [hal]
    calc (alertasDe (lerRestricoes restr).1 0 r.volumes).length
        ≤ 2 * r.volumes.length := alertasDe_length_le _ _ _
      _ = 2 * afl.length := by rw [hlv]
  · intro i hi
    have hi' : i < r.volumes.length := by rw [hlv]; exact hi
    constructor
    · rw [hal, mem_alertasDe]
      constructor
      · rintro ⟨j, hj, hx⟩
        rw [mem_alertaPasso] at hx
        rcases hx with ⟨hcond, heq⟩ | ⟨hcond, heq⟩
        · have hij : i = j := by
            have := congrArg Alerta.mes heq
            simpa using this
          subst hij
          exact hcond
        · have := congrArg Alerta.tipo heq
          simp at this
      · intro hcond
        refine ⟨i, hi', ?_⟩
        rw [mem_alertaPasso]
        exact Or.inl ⟨by simpa using hcond, by simp⟩
    · rw [hal, mem_alertasDe]
      constructor
      · rintro ⟨j, hj, hx⟩
        rw [mem_alertaPasso] at hx
        rcases hx with ⟨hcond, heq⟩ | ⟨hcond, heq⟩
        · have := congrArg Alerta.tipo heq
          simp at this
        · have hij : i = j := by
            have := congrArg Alerta.mes heq
            simpa using this
          subst hij
          exact hcond
      · intro hcond
        refine ⟨i, hi', ?_⟩
        rw [mem_alertaPasso]
        exact Or.inr ⟨by simpa using hcond, by simp⟩

/-- Witness for C5 at a concrete input where both alerts fire in the same
month: `v₀ = 1`, demand 2, `Volume Mínimo Operacional = 10`,
`Volume Morto = 1`; the post-step volume is 0, below both limits. -/
theorem c5_alertas_witness :
    ((⟨[0], [1], [0],
        [⟨1, TipoAlerta.minimoOperacional, 0⟩,
         ⟨1, TipoAlerta.volumeMorto, 0⟩]⟩ : Resultado).alertas =
      alertasDe (lerRestricoes (Restricoes.tabela
        [("Volume Mínimo Operacional", 10), ("Volume Morto", 1)])).1 0
        (⟨[0], [1], [0],
          [⟨1, TipoAlerta.minimoOperacional, 0⟩,
           ⟨1, TipoAlerta.volumeMorto, 0⟩]⟩ : Resultado).volumes) ∧
    (⟨[0], [1], [0],
        [⟨1, TipoAlerta.minimoOperacional, 0⟩,
         ⟨1, TipoAlerta.volumeMorto, 0⟩]⟩ : Resultado).alertas.length ≤
      2 * 1 ∧
    ((⟨1, TipoAlerta.minimoOperacional, round2 ([(0 : ℚ)].getD 0 0)⟩ :
        Alerta) ∈
      (⟨[0], [1], [0],
        [⟨1, TipoAlerta.minimoOperacional, 0⟩,
         ⟨1, TipoAlerta.volumeMorto, 0⟩]⟩ : Resultado).alertas ↔
      [(0 : ℚ)].getD 0 0 < (lerRestricoes (Restricoes.tabela
        [("Volume Mínimo Operacional", 10),
         ("Volume Morto", 1)])).1.volumeMinOper) ∧
    ((⟨1, TipoAlerta.volumeMorto, round2 ([(0 : ℚ)].getD 0 0)⟩ : Alerta) ∈
      (⟨[0], [1], [0],
        [⟨1, TipoAlerta.minimoOperacional, 0⟩,
         ⟨1, TipoAlerta.volumeMorto, 0⟩]⟩ : Resultado).alertas ↔
      [(0 : ℚ)].getD 0 0 < (lerRestricoes (Restricoes.tabela
        [("Volume Mínimo Operacional", 10),
         ("Volume Morto", 1)])).1.volumeMorto) := by
  have hra : lerRestricoes (Restricoes.tabela
      [("Volume Mínimo Operacional", 10), ("Volume Morto", 1)]) =
      (⟨Option.none, 10, 1⟩, false) := by
    simp [lerRestricoes, dictGet, lookupFirst]
  have h : simular_reservatorio 1 [(0, 0), (1, 0), (2, 0), (3, 0)]
      [0] [2] [0] (Restricoes.tabela
        [("Volume Mínimo Operacional", 10), ("Volume Morto", 1)]) =
      Option.some (⟨[0], [1], [0],
        [⟨1, TipoAlerta.minimoOperacional, 0⟩,
         ⟨1, TipoAlerta.volumeMorto, 0⟩]⟩, false) := by
    norm_num [simular_reservatorio, polyfit3, fitCoef, powerSum, momentSum, det4, det3,
      hra, simulaLoop, passo, polyEval, minCap, alertaPasso, round2, round_eq]
  have hmain := c5_alertas 1 [(0, 0), (1, 0), (2, 0), (3, 0)] [0] [2] [0]
    (Restricoes.tabela [("Volume Mínimo Operacional", 10),
      ("Volume Morto", 1)])
    ⟨[0], [1], [0],
      [⟨1, TipoAlerta.minimoOperacional, 0⟩,
       ⟨1, TipoAlerta.volumeMorto, 0⟩]⟩ false h
  exact ⟨hmain.1, hmain.2.1, (hmain.2.2 0 (by norm_num)).1,
    (hmain.2.2 0 (by norm_num)).2⟩

/-- Claim C6 is false as stated: a volume/area table with fewer than 4
sample points does not in general abort the run.  `np.polyfit` only warns
(`RankWarning`) on a rank-deficient system; here a 2-point table is
accepted and the run returns a complete (empty-horizon) result bundle. -/
theorem c6_ajuste_falha_contraexemplo :
    ([((0 : ℚ), (0 : ℚ)), (10, 1)] : List (ℚ × ℚ)).length < 4 ∧
    simular_reservatorio 10 [(0, 0), (10, 1)] [] [] [] Restricoes.nenhuma =
      Option.some (⟨[], [], [], []⟩, false) := by
  refine ⟨by norm_num, ?_⟩
  norm_num [simular_reservatorio, polyfit3, fitCoef, powerSum, momentSum, det4, det3,
    lerRestricoes, simulaLoop]

/-- Claim C6, amended: the fitting step aborts the run — surfacing the
exception to the caller with no partial result — only when `np.polyfit`
raises, i.e. when the sample table is empty (or every sampled volume is 0,
where numpy's internal column scaling fails); a non-degenerate table with
1–3 points only triggers a non-fatal `RankWarning` and the run completes
with a full result bundle. -/
theorem c6_ajuste_falha (v0 : ℚ) (curva : List (ℚ × ℚ))
    (afl dem ev : List ℚ) (restr : Restricoes)
    (hdl : afl.length ≤ dem.length) (hevl : afl.length ≤ ev.length) :
    (curva = [] →
      simular_reservatorio v0 curva afl dem ev restr = Option.none) ∧
    (curva ≠ [] → ¬(∀ x ∈ curva.map Prod.fst, x = 0) →
      (simular_reservatorio v0 curva afl dem ev restr).isSome = true) := by
  constructor
  · intro hc
    subst hc
    simp [simular_reservatorio, polyfit3]
  · intro h1 h2
    have hfit : ∃ c, polyfit3 (curva.map Prod.fst) (curva.map Prod.snd) =
        Option.some c := by
      unfold polyfit3
      rw [if_neg]
      · exact ⟨_, rfl⟩
      · simp only [List.isEmpty_iff, List.all_eq_true, decide_eq_true_eq]
        rintro (hmap | hall)
        · exact h1 (List.map_eq_nil_iff.mp hmap)
        · exact h2 hall
    obtain ⟨c, hc⟩ := hfit
    have htot := simulaLoop_isSome (polyEval c) (lerRestricoes restr).1
      afl dem ev 0 v0 hdl hevl
    rcases hsl : simulaLoop (polyEval c) (lerRestricoes restr).1 afl dem ev
        0 v0 with _ | r
    · rw [hsl] at htot
      simp at htot
    · simp [simular_reservatorio, hc, hsl]

/-- Witness for the amended C6: the 2-point table `[(0,0),(10,1)]` (not
empty, not all-zero volumes) yields a completed run. -/
theorem c6_ajuste_falha_witness :
    (simular_reservatorio 10 [(0, 0), (10, 1)] [] [] []
      Restricoes.nenhuma).isSome = true := by
  refine (c6_ajuste_falha 10 [(0, 0), (10, 1)] [] [] [] Restricoes.nenhuma
    (by norm_num) (by norm_num)).2 (by simp) ?_
  intro hall
  have := hall 10 (by norm_num)
  norm_num at this

/-- Claim C7: a malformed constraints table is recovered from — the run
completes with exactly the bundle produced under the default limits
(`Volume Máximo = +inf`, `Volume Mínimo Operacional = 0`,
`Volume Morto = 0`) and the only trace is the warning flag; a well-formed
table carrying none of the three recognized keys likewise yields the
default-limit bundle.  A malformed constraints table never aborts the
run. -/
theorem c7_restricoes_robustas (v0 : ℚ) (curva : List (ℚ × ℚ))
    (afl dem ev : List ℚ)
    (hfit : ∃ c, polyfit3 (curva.map Prod.fst) (curva.map Prod.snd) =
      Option.some c)
    (hdl : afl.length ≤ dem.length) (hevl : afl.length ≤ ev.length) :
    ∃ r : Resultado,
      simular_reservatorio v0 curva afl dem ev Restricoes.malformada =
        Option.some (r, true) ∧
      simular_reservatorio v0 curva afl dem ev Restricoes.nenhuma =
        Option.some (r, false) ∧
      ∀ rows, dictGet rows "Volume Máximo" = Option.none →
        dictGet rows "Volume Mínimo Operacional" = Option.none →
        dictGet rows "Volume Morto" = Option.none →
        simular_reservatorio v0 curva afl dem ev (Restricoes.tabela rows) =
          Option.some (r, false) := by
  obtain ⟨c, hc⟩ := hfit
  have htot := simulaLoop_isSome (polyEval c) ⟨Option.none, 0, 0⟩
    afl dem ev 0 v0 hdl hevl
  rcases hsl : simulaLoop (polyEval c) ⟨Option.none, 0, 0⟩ afl dem ev
      0 v0 with _ | r
  · rw [hsl] at htot
    simp at htot
  · refine ⟨r, ?_, ?_, ?_⟩
    · simp [simular_reservatorio, hc, lerRestricoes, hsl]
    · simp [simular_reservatorio, hc, lerRestricoes, hsl]
    · intro rows h1 h2 h3
      have hlr : lerRestricoes (Restricoes.tabela rows) =
          (⟨Option.none, 0, 0⟩, false) := by
        simp [lerRestricoes, h1, h2, h3]
      simp [simular_reservatorio, hc, hlr, hsl]

/-- Witness for C7 at a concrete input: the same bundle is returned for a
malformed table (with the warning flag), for no table at all, and for a
table with only an unrecognized key. -/
theorem c7_restricoes_robustas_witness :
    simular_reservatorio 0 [(0, 0), (1, 0), (2, 0), (3, 0)] [0] [0] [0]
        Restricoes.malformada =
      Option.some (⟨[0], [0], [0], []⟩, true) ∧
    simular_reservatorio 0 [(0, 0), (1, 0), (2, 0), (3, 0)] [0] [0] [0]
        Restricoes.nenhuma =
      Option.some (⟨[0], [0], [0], []⟩, false) ∧
    simular_reservatorio 0 [(0, 0), (1, 0), (2, 0), (3, 0)] [0] [0] [0]
        (Restricoes.tabela [("Spill", 7)]) =
      Option.some (⟨[0], [0], [0], []⟩, false) := by
  obtain ⟨r, h1, h2, h3⟩ := c7_restricoes_robustas 0
    [(0, 0), (1, 0), (2, 0), (3, 0)] [0] [0] [0]
    ⟨⟨0, 0, 0, 0⟩, by norm_num [polyfit3, fitCoef, powerSum, momentSum, det4, det3]⟩
    (by norm_num) (by norm_num)
  have h2' : simular_reservatorio 0 [(0, 0), (1, 0), (2, 0), (3, 0)]
      [0] [0] [0] Restricoes.nenhuma =
      Option.some (⟨[0], [0], [0], []⟩, false) := by
    norm_num [simular_reservatorio, polyfit3, fitCoef, powerSum, momentSum, det4, det3,
      lerRestricoes, simulaLoop, passo, polyEval, minCap, alertaPasso,
      round2, round_eq]
  have hr : r = ⟨[0], [0], [0], []⟩ := by
    have := h2.symm.trans h2'
    exact (Prod.mk.injEq .. ▸ Option.some.inj this).1
  subst hr
  refine ⟨h1, h2', h3 [("Spill", 7)] ?_ ?_ ?_⟩ <;>
    simp [dictGet, lookupFirst]

/-- Claim C8 is false as stated: a step with zero inflow, zero evaporation
rate and zero demand still truncates the stored volume to `Volume Máximo`.
Here `v₀ = 10` with cap 5 and all-zero series records `volumes[0] = 5 ≠
10`. -/
theorem c8_passo_nulo_contraexemplo :
    simular_reservatorio 10 [(0, 0), (1, 0), (2, 0), (3, 0)] [0] [0] [0]
        (Restricoes.tabela [("Volume Máximo", 5)]) =
      Option.some (⟨[5], [0], [0], []⟩, false) ∧
    volAnterior 10 [(5 : ℚ)] 0 = 10 ∧ [(5 : ℚ)].getD 0 0 ≠ 10 := by
  have hra : lerRestricoes (Restricoes.tabela [("Volume Máximo", 5)]) =
      (⟨Option.some 5, 0, 0⟩, false) := by
    simp [lerRestricoes, dictGet, lookupFirst]
  refine ⟨?_, by norm_num [volAnterior], by norm_num⟩
  norm_num [simular_reservatorio, polyfit3, fitCoef, powerSum, momentSum, det4, det3,
    hra, simulaLoop, passo, polyEval, minCap, alertaPasso, round2, round_eq]

/-- Claim C8, amended: a step with zero inflow, zero evaporation rate and
zero demand leaves the stored volume unchanged *provided the start-of-step
volume already lies within the operational band* — it is non-negative and
does not exceed `Volume Máximo` when a finite cap is given. -/
theorem c8_passo_nulo (v0 : ℚ) (curva : List (ℚ × ℚ))
    (afl dem ev : List ℚ) (restr : Restricoes) (r : Resultado) (w : Bool)
    (h : simular_reservatorio v0 curva afl dem ev restr =
      Option.some (r, w)) :
    ∀ i, i < afl.length →
      afl.getD i 0 = 0 → ev.getD i 0 = 0 → dem.getD i 0 = 0 →
      0 ≤ volAnterior v0 r.volumes i →
      (∀ m, (lerRestricoes restr).1.volumeMax = Option.some m →
        volAnterior v0 r.volumes i ≤ m) →
      r.volumes.getD i 0 = volAnterior v0 r.volumes i := by
  intro i hi ha hevd hd hvp hcap
  obtain ⟨c, hc, hl, hw⟩ := simular_eq_some h
  obtain ⟨_, _, hidx⟩ :=
    simulaLoop_spec (polyEval c) (lerRestricoes restr).1 afl dem ev 0 v0 r hl
  obtain ⟨he, hrt, hv⟩ := hidx i hi
  have hevap : (passo (polyEval c) (lerRestricoes restr).1 (0 + i)
      (volAnterior v0 r.volumes i) (afl.getD i 0) (dem.getD i 0)
      (ev.getD i 0)).evap = 0 := by
    rw [passo_evap, hevd]
    norm_num
  have hret : (passo (polyEval c) (lerRestricoes restr).1 (0 + i)
      (volAnterior v0 r.volumes i) (afl.getD i 0) (dem.getD i 0)
      (ev.getD i 0)).retirada = 0 := by
    rw [passo_retirada, hevap, hd, ha]
    exact min_eq_left (le_max_left 0 _)
  rw [hv, passo_vAtual, hevap, hret, ha]
  have hx : volAnterior v0 r.volumes i + 0 - 0 - 0 =
      volAnterior v0 r.volumes i := by ring
  rw [hx, max_eq_left hvp]
  rcases hMM : (lerRestricoes restr).1.volumeMax with _ | m
  · rfl
  · exact min_eq_left (hcap m hMM)

/-- Witness for the amended C8 at a concrete input: `v₀ = 5`, cap 10,
all-zero series — the recorded volume stays 5. -/
theorem c8_passo_nulo_witness :
    [(5 : ℚ)].getD 0 0 = volAnterior 5 [(5 : ℚ)] 0 := by
  have hra : lerRestricoes (Restricoes.tabela [("Volume Máximo", 10)]) =
      (⟨Option.some 10, 0, 0⟩, false) := by
    simp [lerRestricoes, dictGet, lookupFirst]
  have h : simular_reservatorio 5 [(0, 0), (1, 0), (2, 0), (3, 0)] [0] [0] [0]
      (Restricoes.tabela [("Volume Máximo", 10)]) =
      Option.some (⟨[5], [0], [0], []⟩, false) := by
    norm_num [simular_reservatorio, polyfit3, fitCoef, powerSum, momentSum, det4, det3,
      hra, simulaLoop, passo, polyEval, minCap, alertaPasso, round2, round_eq]
  exact c8_passo_nulo 5 [(0, 0), (1, 0), (2, 0), (3, 0)] [0] [0] [0]
    (Restricoes.tabela [("Volume Máximo", 10)]) ⟨[5], [0], [0], []⟩ false h
    0 (by norm_num) (by norm_num) (by norm_num) (by norm_num)
    (by norm_num [volAnterior])
    (by intro m hm
        rw [hra] at hm
        rw [← Option.some.inj hm]
        norm_num [volAnterior])

/-- Claim C9: whenever the fit succeeds and the three series have the same
length `N` (including `N = 0`), the run returns a bundle whose volume,
release and evaporation sequences all have length `N`; for `N = 0` the
bundle is entirely empty (including the alert list) and no exception
occurs. -/
theorem c9_comprimentos (v0 : ℚ) (curva : List (ℚ × ℚ))
    (afl dem ev : List ℚ) (restr : Restricoes)
    (hfit : ∃ c, polyfit3 (curva.map Prod.fst) (curva.map Prod.snd) =
      Option.some c)
    (hdl : dem.length = afl.length) (hevl : ev.length = afl.length) :
    ∃ r : Resultado,
      simular_reservatorio v0 curva afl dem ev restr =
        Option.some (r, (lerRestricoes restr).2) ∧
      r.volumes.length = afl.length ∧ r.retiradas.length = afl.length ∧
      r.evaporacao.length = afl.length ∧
      (afl = [] → r = ⟨[], [], [], []⟩) := by
  obtain ⟨c, hc⟩ := hfit
  have htot := simulaLoop_isSome (polyEval c) (lerRestricoes restr).1
    afl dem ev 0 v0 (by omega) (by omega)
  rcases hsl : simulaLoop (polyEval c) (lerRestricoes restr).1 afl dem ev
      0 v0 with _ | r
  · rw [hsl] at htot
    simp at htot
  · obtain ⟨⟨h1, h2, h3⟩, _, _⟩ :=
      simulaLoop_spec (polyEval c) (lerRestricoes restr).1 afl dem ev 0 v0 r hsl
    refine ⟨r, by simp [simular_reservatorio, hc, hsl], h1, h2, h3, ?_⟩
    intro hafl
    subst hafl
    rw [simulaLoop] at hsl
    exact (Option.some.inj hsl).symm

/-- Witness for C9 at the `N = 0` input: three empty series yield the
empty bundle with no exception. -/
theorem c9_comprimentos_witness :
    simular_reservatorio 7 [(0, 0), (1, 0), (2, 0), (3, 0)] [] [] []
        Restricoes.nenhuma =
      Option.some (⟨[], [], [], []⟩, false) := by
  obtain ⟨r, h1, _, _, _, hnil⟩ := c9_comprimentos 7
    [(0, 0), (1, 0), (2, 0), (3, 0)] [] [] [] Restricoes.nenhuma
    ⟨⟨0, 0, 0, 0⟩, by norm_num [polyfit3, fitCoef, powerSum, momentSum, det4, det3]⟩
    rfl rfl
  rw [hnil rfl] at h1
  exact h1

/-- Claim C10 (implicit behaviour): the recorded evaporation is never
capped by the water actually present.  At the concrete input below the
step records `evap[0] = 10` although only `v + inflow = 1` was available,
clamping the next volume to 0, so release + evaporation + storage change
exceeds the inflow; and in general the exact per-step mass balance
`v_next + release + evap = v + inflow` holds whenever the evaporation
demand fits in the available water and the volume cap is not hit. -/
theorem c10_balanco_de_massa :
    (simular_reservatorio 1 [(0, 100), (1, 100), (2, 100), (3, 100)]
        [0] [0] [100] Restricoes.nenhuma =
      Option.some (⟨[0], [0], [10], []⟩, false) ∧
      volAnterior 1 [(0 : ℚ)] 0 + [(0 : ℚ)].getD 0 0 < 10 ∧
      (0 : ℚ) + 0 + 10 ≠ volAnterior 1 [(0 : ℚ)] 0 + [(0 : ℚ)].getD 0 0) ∧
    ∀ (v0 : ℚ) (curva : List (ℚ × ℚ)) (afl dem ev : List ℚ)
      (restr : Restricoes) (r : Resultado) (w : Bool),
      simular_reservatorio v0 curva afl dem ev restr =
        Option.some (r, w) →
      ∀ i, i < afl.length →
        0 ≤ volAnterior v0 r.volumes i + afl.getD i 0 -
          r.evaporacao.getD i 0 →
        (∀ m, (lerRestricoes restr).1.volumeMax = Option.some m →
          volAnterior v0 r.volumes i + afl.getD i 0 -
            r.evaporacao.getD i 0 - r.retiradas.getD i 0 ≤ m) →
        r.volumes.getD i 0 + r.retiradas.getD i 0 + r.evaporacao.getD i 0 =
          volAnterior v0 r.volumes i + afl.getD i 0 := by
  constructor
  · refine ⟨?_, by norm_num [volAnterior], by norm_num [volAnterior]⟩
    norm_num [simular_reservatorio, polyfit3, fitCoef, powerSum, momentSum, det4, det3,
      lerRestricoes, simulaLoop, passo, polyEval, minCap, alertaPasso,
      round2, round_eq]
  · intro v0 curva afl dem ev restr r w h i hi h0 hcap
    obtain ⟨c, hc, hl, hw⟩ := simular_eq_some h
    obtain ⟨_, _, hidx⟩ :=
      simulaLoop_spec (polyEval c) (lerRestricoes restr).1 afl dem ev 0 v0 r hl
    obtain ⟨he, hrt, hv⟩ := hidx i hi
    rw [he] at h0
    rw [he, hrt] at hcap
    rw [he, hrt, hv, passo_vAtual]
    have hR : (passo (polyEval c) (lerRestricoes restr).1 (0 + i)
        (volAnterior v0 r.volumes i) (afl.getD i 0) (dem.getD i 0)
        (ev.getD i 0)).retirada ≤
        volAnterior v0 r.volumes i + afl.getD i 0 -
          (passo (polyEval c) (lerRestricoes restr).1 (0 + i)
            (volAnterior v0 r.volumes i) (afl.getD i 0) (dem.getD i 0)
            (ev.getD i 0)).evap := by
      rw [passo_retirada]
      exact le_trans (min_le_right _ _) (le_of_eq (max_eq_right h0))
    have hnn : 0 ≤ volAnterior v0 r.volumes i + afl.getD i 0 -
        (passo (polyEval c) (lerRestricoes restr).1 (0 + i)
          (volAnterior v0 r.volumes i) (afl.getD i 0) (dem.getD i 0)
          (ev.getD i 0)).evap -
        (passo (polyEval c) (lerRestricoes restr).1 (0 + i)
          (volAnterior v0 r.volumes i) (afl.getD i 0) (dem.getD i 0)
          (ev.getD i 0)).retirada := by linarith
    rw [max_eq_left hnn]
    rcases hMM : (lerRestricoes restr).1.volumeMax with _ | m
    · show volAnterior v0 r.volumes i + afl.getD i 0 - _ - _ + _ + _ = _
      ring
    · rw [show minCap _ (Option.some m) = min _ m from rfl,
        min_eq_left (hcap m hMM)]
      ring

/-- Witness for the mass-balance half of C10 at a concrete input:
`v₀ = 6`, inflow 2, demand 3, no evaporation — `5 + 3 + 0 = 6 + 2`. -/
theorem c10_balanco_de_massa_witness :
    (⟨[5], [3], [0], []⟩ : Resultado).volumes.getD 0 0 +
      (⟨[5], [3], [0], []⟩ : Resultado).retiradas.getD 0 0 +
      (⟨[5], [3], [0], []⟩ : Resultado).evaporacao.getD 0 0 =
    volAnterior 6 (⟨[5], [3], [0], []⟩ : Resultado).volumes 0 +
      [(2 : ℚ)].getD 0 0 := by
  have h : simular_reservatorio 6 [(0, 0), (1, 0), (2, 0), (3, 0)] [2] [3] [0]
      Restricoes.nenhuma = Option.some (⟨[5], [3], [0], []⟩, false) := by
    norm_num [simular_reservatorio, polyfit3, fitCoef, powerSum, momentSum, det4, det3,
      lerRestricoes, simulaLoop, passo, polyEval, minCap, alertaPasso,
      round2, round_eq]
  exact c10_balanco_de_massa.2 6 [(0, 0), (1, 0), (2, 0), (3, 0)] [2] [3] [0]
    Restricoes.nenhuma ⟨[5], [3], [0], []⟩ false h 0 (by norm_num)
    (by norm_num [volAnterior])
    (by intro m hm
        exact Option.noConfusion hm)

end Simulacao
